import Mathlib

/-!
Shallow embedding of `src/csp_servo_template.c` (CiA-402 CSP servo template).

The cycle function `ServoTemplate_Run` is modelled as a pure step function on
an explicit context `Ctx` holding the C function's `static` locals, taking the
per-tick inputs (status word, actual position, following error, monotonic
clock value) and producing the next context together with a record of the
output-buffer writes and log events performed during that tick.

Machine integers: the process-image fields are 16/32-bit.  `status_word` is a
`Nat` (value of a `uint16_t`), positions and errors are `Int` with explicit
two's-complement reduction `toInt32` where the C code casts `uint32_t` to
`int32_t`, and C `int` division (truncation toward zero) is `Int.tdiv`.
-/

/-! ### Configuration constants (section 1 of the source) -/

def LOOP_PERIOD_MS : Int := 1
def INC_STEP : Int := 300
def LIMIT_POS : Int := 200000
def DWELL_MS : Int := 500
def RAMP_MS : Int := 300
def FE_WINDOW_COUNTS : Int := 20000
def FE_WARN_PCT : Int := 80
def FAULT_COOLDOWN_MS : Int := 250
def COMM_COOLDOWN_MS : Int := 0
def SETPOINT_EDGE_POLICY : Nat := 1

/-- Two's-complement reinterpretation of an integer as a signed 32-bit value,
modelling the C cast `(int32_t)EC_GETUINT32(...)` and 32-bit wraparound. -/
def toInt32 (x : Int) : Int := (x + 2 ^ 31) % 2 ^ 32 - 2 ^ 31

/-! ### Per-tick inputs and outputs -/

/-- The data `ServoTemplate_Run` reads during one invocation: the drive input
process image (`status_word`, `position_actual_value`,
`following_error_actual`) and the value returned by `now_ms()` on this tick. -/
structure Inputs where
  status_word : Nat
  position_actual_value : Int
  following_error_actual : Int
  now : Int
deriving Repr, DecidableEq

/-- The observable effects of one invocation: which output-image fields were
written (and with what value), and whether the following-error monitor emitted
a warning / recovery log event this tick. -/
structure Outputs where
  control_word : Option Nat
  target_position : Option Int
  warn_event : Bool
  recover_event : Bool
deriving Repr, DecidableEq

/-- A tick that writes nothing and emits no events. -/
def noOut : Outputs := ⟨Option.none, Option.none, false, false⟩

/-! ### The control-loop context (the `static` locals of `ServoTemplate_Run`) -/

structure Ctx where
  st : Int
  t0 : Int
  pos_tgt : Int
  dir : Int
  dwell_rem : Int
  ramp_rem : Int
  fe_warn : Bool
  fault_cool_rem : Int
  comm_cool_rem : Int
  edge : Nat
  need_release : Bool
deriving Repr, DecidableEq

/-- Initial values of the `static` locals (C zero/explicit initialisers). -/
def initCtx : Ctx :=
  { st := 0, t0 := 0, pos_tgt := 0, dir := 1, dwell_rem := 0, ramp_rem := 0
    fe_warn := false, fault_cool_rem := 0, comm_cool_rem := COMM_COOLDOWN_MS
    edge := 0, need_release := false }

/-! ### Following-error monitor (lines 339-344 of the source) -/

def fe_warn_th : Int := Int.tdiv (FE_WINDOW_COUNTS * FE_WARN_PCT) 100
def fe_ok_th : Int := Int.tdiv (FE_WINDOW_COUNTS * 40) 100

/-- One evaluation of the following-error hysteresis monitor: given the
latched flag and the current error, return the new latched flag, whether a
warning event was emitted, and whether a recovery event was emitted. -/
def feMonitor (w : Bool) (fe : Int) : Bool × Bool × Bool :=
  if w = false ∧ (fe > fe_warn_th ∨ fe < -fe_warn_th) then (true, true, false)
  else if w = true ∧ (fe < fe_ok_th ∧ fe > -fe_ok_th) then (false, false, true)
  else (w, false, false)

/-! ### Ramp-scaled increment (lines 311-319 of the source) -/

/-- The per-tick increment `delta` computed by the producer, as a function of
the direction and the remaining ramp countdown. -/
def rampDelta (dir ramp_rem : Int) : Int :=
  let delta := dir * INC_STEP
  if ramp_rem > 0 then
    let ramp_total : Int := if RAMP_MS > 0 then RAMP_MS else 1
    let ramp_used : Int := ramp_total - ramp_rem + 1
    let scaled := Int.tdiv (delta * ramp_used) ramp_total
    if scaled = 0 ∧ dir ≠ 0 then (if dir > 0 then 1 else -1) else scaled
  else delta

/-! ### CSP set-point producer (lines 302-347 of the source, body of the
`now - t0 >= LOOP_PERIOD_MS` guard) -/

/-- The motion update of one producer tick on the fields
`(pos_tgt, dir, dwell_rem, ramp_rem)`: dwell handling, ramp-scaled increment,
and the software-limit clamp.  The C clamp is two sequential `if`s; after the
first fires the target equals `LIMIT_POS > -LIMIT_POS`, so the second cannot
also fire and an if/else-if chain is equivalent. -/
def producerCore (pos_tgt dir dwell_rem ramp_rem : Int) : Int × Int × Int × Int :=
  if dwell_rem > 0 then
    let d := dwell_rem - 1
    if d = 0 then (pos_tgt, if dir = 0 then -1 else dir, d, RAMP_MS)
    else (pos_tgt, dir, d, ramp_rem)
  else
    let delta := rampDelta dir ramp_rem
    let ramp1 := if ramp_rem > 0 then ramp_rem - 1 else ramp_rem
    let p := toInt32 (pos_tgt + delta)
    if p > LIMIT_POS then (LIMIT_POS, 0, DWELL_MS, ramp1)
    else if p < -LIMIT_POS then (-LIMIT_POS, 0, DWELL_MS, ramp1)
    else (p, dir, dwell_rem, ramp1)

def producerTick (c : Ctx) (i : Inputs) : Ctx × Outputs :=
  let pos_prev := c.pos_tgt
  let core := producerCore c.pos_tgt c.dir c.dwell_rem c.ramp_rem
  let edge1 : Nat :=
    if SETPOINT_EDGE_POLICY = 0 then c.edge ^^^ 0x0010
    else if core.1 ≠ pos_prev then c.edge ^^^ 0x0010 else c.edge
  let fe := toInt32 i.following_error_actual
  let m := feMonitor c.fe_warn fe
  ({ c with pos_tgt := core.1, dir := core.2.1, dwell_rem := core.2.2.1
            ramp_rem := core.2.2.2, edge := edge1, fe_warn := m.1, t0 := i.now },
   { control_word := some (0x000F ||| edge1), target_position := some core.1
     warn_event := m.2.1, recover_event := m.2.2 })

/-! ### The cycle function body (lines 214-349 of the source) -/

def ServoTemplate_RunBody (c : Ctx) (i : Inputs) : Ctx × Outputs :=
  let SW := i.status_word
  if SW = 0 then
    ({ c with t0 := i.now }, noOut)
  else if SW &&& 0x0008 ≠ 0 then
    if c.need_release = false then
      ({ c with need_release := true }, { noOut with control_word := some 0x0080 })
    else
      ({ c with need_release := false }, { noOut with control_word := some 0x0006 })
  else if c.fault_cool_rem > 0 then
    (if i.now - c.t0 ≥ 1 then
       { c with fault_cool_rem := c.fault_cool_rem - 1, t0 := i.now } else c,
     { noOut with control_word := some 0x0006 })
  else if c.comm_cool_rem > 0 then
    (if i.now - c.t0 ≥ 1 then
       { c with comm_cool_rem := c.comm_cool_rem - 1, t0 := i.now } else c,
     { noOut with control_word := some 0x0006 })
  else if SW &&& 0x0040 ≠ 0 then
    ({ c with st := 0 }, { noOut with control_word := some 0x0006 })
  else if c.st = 0 then
    (if SW &&& 0x006F = 0x0021 then { c with st := 1 } else c,
     { noOut with control_word := some 0x0006 })
  else if c.st = 1 then
    (if SW &&& 0x006F = 0x0023 then { c with st := 2 } else c,
     { noOut with control_word := some 0x0007 })
  else if c.st = 2 then
    let pos_act := toInt32 i.position_actual_value
    let c1 := { c with pos_tgt := pos_act }
    let c2 :=
      if SW &&& 0x006F = 0x0027 then
        { c1 with st := 3, t0 := i.now, ramp_rem := RAMP_MS } else c1
    (c2, { noOut with control_word := some 0x000F, target_position := some pos_act })
  else if c.st = 3 then
    if i.now - c.t0 ≥ LOOP_PERIOD_MS then producerTick c i else (c, noOut)
  else (c, noOut)

/-- Result code and buffer-mapping outcome of `ServoTemplate_Init`.  In the
source, `map_io` is the integration stub that returns `-1` (pointers stay
`NULL`) until the user wires a master; a PDO-size mismatch between the ENI and
the structs only logs a warning and is not fatal. -/
def map_io_ret : Int := -1

def ServoTemplate_Init (eni_in_bits eni_out_bits eni_in_off_bits eni_out_off_bits : Nat) :
    Int × Bool :=
  ((0 : Int), decide (map_io_ret = 0))

/-- The full cycle function including the `!g_in || !g_out` guard: when the
buffers are unmapped the call returns immediately, touching nothing. -/
def ServoTemplate_Run (mapped : Bool) (c : Ctx) (i : Inputs) : Ctx × Outputs :=
  if mapped then ServoTemplate_RunBody c i else (c, noOut)

/-! ### Traces -/

/-- Run the cycle function over a list of per-tick inputs, collecting the
outputs of every tick. -/
def runTrace (c : Ctx) : List Inputs → Ctx × List Outputs
  | [] => (c, [])
  | i :: rest =>
    let r := ServoTemplate_RunBody c i
    let t := runTrace r.1 rest
    (t.1, r.2 :: t.2)

/-- Fold the following-error monitor over a trace of error values, counting
emitted warning and recovery events. -/
def feScan (w : Bool) : List Int → Bool × Nat × Nat
  | [] => (w, 0, 0)
  | fe :: rest =>
    let m := feMonitor w fe
    let t := feScan m.1 rest
    (t.1, (if m.2.1 then 1 else 0) + t.2.1, (if m.2.2 then 1 else 0) + t.2.2)

/-! ### Concrete scenario traces used by the claims -/

/-- Enable-sequence scenario: comm down, then ready-to-switch-on, switched-on
(twice, the second with actual position 1000), operation-enabled, and one
producer tick. -/
def enableScenario : List Inputs :=
  [⟨0, 0, 0, 1⟩, ⟨0x0021, 0, 0, 2⟩, ⟨0x0023, 0, 0, 3⟩, ⟨0x0023, 1000, 0, 4⟩,
   ⟨0x0027, 1000, 0, 5⟩, ⟨0x0027, 1000, 0, 6⟩]

/-- Trace reaching the Aligning stage with an actual position beyond the
software limit. -/
def alignOverTrace : List Inputs :=
  [⟨0x0021, 0, 0, 1⟩, ⟨0x0023, 0, 0, 2⟩, ⟨0x0023, 300000, 0, 3⟩]

/-- Trace that runs the enable sequence, sees a fault for two ticks, then sees
the fault cleared. -/
def faultClearTrace : List Inputs :=
  [⟨0x0021, 0, 0, 1⟩, ⟨0x0023, 0, 0, 2⟩, ⟨0x0027, 0, 0, 3⟩,
   ⟨0x0008, 0, 0, 4⟩, ⟨0x0008, 0, 0, 5⟩, ⟨0x0027, 0, 0, 6⟩]

/-- Trace in which the fault bit is set for one tick only and is already clear
on the following tick (while the enable sequence is in SwitchingOn). -/
def faultBlipTrace : List Inputs :=
  [⟨0x0021, 0, 0, 1⟩, ⟨0x0008, 0, 0, 2⟩, ⟨0x0021, 0, 0, 3⟩]

/-- Running-stage context sitting at the negative software limit on the last
dwell tick (the state the producer reaches after descending to `-LIMIT_POS`
and dwelling there). -/
def dwellEndNegCtx : Ctx :=
  { st := 3, t0 := 0, pos_tgt := -LIMIT_POS, dir := 0, dwell_rem := 1
    ramp_rem := 0, fe_warn := false, fault_cool_rem := 0, comm_cool_rem := 0
    edge := 0, need_release := false }

/-! ### C1 — clamp invariant: counterexample -/

/-- C1 (counterexample).  The clamp invariant does not cover the Aligning-stage
write: with `position_actual_value = 300000` the third tick of
`alignOverTrace` writes `target_position = 300000`, which exceeds
`LIMIT_POS = 200000`. -/
theorem clamp_violated_in_aligning :
    ((runTrace initCtx alignOverTrace).2.map (fun o => o.target_position)) =
      [none, none, some 300000] ∧ ¬ ((300000 : Int) ≤ LIMIT_POS) := by
  decide

/-! ### C2 — dwell and reversal: the code never reverses at the negative limit -/

/-- C2 (code bug).  From the last dwell tick at `-LIMIT_POS`, the resume
assignment `dir = (dir==0 ? -1 : dir)` restores direction `-1` (not `+1`): the
next producer tick steps to `-LIMIT_POS - 1`, is clamped straight back to
`-LIMIT_POS`, and a fresh full dwell starts, so the target stays pinned at the
negative limit indefinitely instead of reversing into a sawtooth. -/
theorem dwell_no_reversal_at_negative_limit :
    ((ServoTemplate_RunBody dwellEndNegCtx ⟨0x0027, 0, 0, 1⟩).1.dir = -1 ∧
     (ServoTemplate_RunBody dwellEndNegCtx ⟨0x0027, 0, 0, 1⟩).2.target_position =
       some (-LIMIT_POS)) ∧
    ((ServoTemplate_RunBody
        (ServoTemplate_RunBody dwellEndNegCtx ⟨0x0027, 0, 0, 1⟩).1
        ⟨0x0027, 0, 0, 2⟩).2.target_position = some (-LIMIT_POS) ∧
     (ServoTemplate_RunBody
        (ServoTemplate_RunBody dwellEndNegCtx ⟨0x0027, 0, 0, 1⟩).1
        ⟨0x0027, 0, 0, 2⟩).1.dwell_rem = DWELL_MS ∧
     (ServoTemplate_RunBody
        (ServoTemplate_RunBody dwellEndNegCtx ⟨0x0027, 0, 0, 1⟩).1
        ⟨0x0027, 0, 0, 2⟩).1.dir = 0) := by
  decide

/-! ### C3 — post-fault cooldown: the countdown is never armed -/

set_option maxHeartbeats 2000000 in
/-- C3 (code bug).  `fault_cool_rem` starts at 0 and is only ever decremented,
never set: on `faultClearTrace` the tick right after the fault bit clears
already writes the producer control word `0x001F`, not `0x0006`, and the
cooldown counter is still 0.  The second conjunct shows no step can ever make
the counter positive. -/
theorem fault_cooldown_never_armed :
    (((runTrace initCtx faultClearTrace).2.map (fun o => o.control_word) =
        [some 0x0006, some 0x0007, some 0x000F, some 0x0080, some 0x0006,
         some 0x001F]) ∧
      (runTrace initCtx faultClearTrace).1.fault_cool_rem = 0 ∧
      FAULT_COOLDOWN_MS = 250) ∧
    (∀ (c : Ctx) (i : Inputs), c.fault_cool_rem = 0 →
      (ServoTemplate_RunBody c i).1.fault_cool_rem = 0) := by
  constructor
  · decide
  · intro c i h
    rw [ServoTemplate_RunBody]
    split_ifs <;> (try rw [producerTick]) <;> simp [h] <;> omega

/-- Witness for the hypothesised part of `fault_cooldown_never_armed`. -/
theorem fault_cooldown_never_armed_witness :
    (ServoTemplate_RunBody initCtx ⟨0x0021, 0, 0, 1⟩).1.fault_cool_rem = 0 :=
  fault_cooldown_never_armed.2 initCtx ⟨0x0021, 0, 0, 1⟩ rfl

/-! ### C4 — fault-reset pulse: counterexample and corrected statement -/

/-- C4 (counterexample).  On `faultBlipTrace` the fault bit is observed set on
tick 2 (status word `0x0008`), but the fault is already clear on tick 3, so
the two control words written from the observation are `[0x0080, 0x0007]`,
not `[0x0080, 0x0006]`: the release phase is skipped and the pending flag
stays set. -/
theorem fault_pulse_release_skipped :
    ((runTrace initCtx faultBlipTrace).2.map (fun o => o.control_word) =
      [some 0x0006, some 0x0080, some 0x0007]) ∧
    (runTrace initCtx faultBlipTrace).1.need_release = true ∧
    some (0x0007 : Nat) ≠ some (0x0006 : Nat) := by
  decide

/-- C4 (amended).  If no release is pending when the fault bit is observed set,
the first tick writes the fault-reset pulse `0x0080` and marks the release
pending; if the fault bit is still set on the next tick, that tick writes
`0x0006` and clears the pending flag.  Neither tick writes a target. -/
theorem fault_pulse_two_ticks (c : Ctx) (i1 i2 : Inputs)
    (hpend : c.need_release = false)
    (hf1 : i1.status_word &&& 0x0008 ≠ 0)
    (hf2 : i2.status_word &&& 0x0008 ≠ 0) :
    (ServoTemplate_RunBody c i1).2.control_word = some 0x0080 ∧
    (ServoTemplate_RunBody c i1).2.target_position = none ∧
    (ServoTemplate_RunBody c i1).1.need_release = true ∧
    (ServoTemplate_RunBody (ServoTemplate_RunBody c i1).1 i2).2.control_word =
      some 0x0006 ∧
    (ServoTemplate_RunBody (ServoTemplate_RunBody c i1).1 i2).2.target_position =
      none ∧
    (ServoTemplate_RunBody (ServoTemplate_RunBody c i1).1 i2).1.need_release =
      false := by
  have h1 : i1.status_word ≠ 0 := by
    intro h; rw [h] at hf1; simp at hf1
  have h2 : i2.status_word ≠ 0 := by
    intro h; rw [h] at hf2; simp at hf2
  simp [ServoTemplate_RunBody, noOut, h1, h2, hf1, hf2, hpend]

/-- Witness for `fault_pulse_two_ticks` at a concrete context and inputs. -/
theorem fault_pulse_two_ticks_witness :
    (ServoTemplate_RunBody initCtx ⟨0x0008, 0, 0, 1⟩).2.control_word =
      some 0x0080 ∧
    (ServoTemplate_RunBody
        (ServoTemplate_RunBody initCtx ⟨0x0008, 0, 0, 1⟩).1
        ⟨0x0008, 0, 0, 2⟩).2.control_word = some 0x0006 :=
  ⟨(fault_pulse_two_ticks initCtx ⟨0x0008, 0, 0, 1⟩ ⟨0x0008, 0, 0, 2⟩ rfl
      (by decide) (by decide)).1,
   (fault_pulse_two_ticks initCtx ⟨0x0008, 0, 0, 1⟩ ⟨0x0008, 0, 0, 2⟩ rfl
      (by decide) (by decide)).2.2.2.1⟩

/-! ### C5 — enable-sequence scenario -/

/-- C5 (confirmed).  On `enableScenario`: the all-zero status word produces no
writes; at `0x0021` the core writes `0x0006` and advances to SwitchingOn; at
`0x0023` it writes `0x0007` and advances to Aligning; in Aligning it writes
the actual position 1000 as target with control word `0x000F`; at `0x0027` it
advances to Running arming the ramp, and the first Running target is 1001,
a positive delta of 1 < `INC_STEP` from the initial 1000. -/
theorem enable_sequence_scenario :
    (runTrace initCtx enableScenario).2 =
      [noOut,
       { noOut with control_word := some 0x0006 },
       { noOut with control_word := some 0x0007 },
       { noOut with control_word := some 0x000F, target_position := some 1000 },
       { noOut with control_word := some 0x000F, target_position := some 1000 },
       { noOut with control_word := some 0x001F, target_position := some 1001 }] ∧
    (runTrace initCtx (enableScenario.take 1)).1.st = 0 ∧
    (runTrace initCtx (enableScenario.take 2)).1.st = 1 ∧
    (runTrace initCtx (enableScenario.take 3)).1.st = 2 ∧
    (runTrace initCtx (enableScenario.take 4)).1.st = 2 ∧
    (runTrace initCtx (enableScenario.take 5)).1.st = 3 ∧
    (runTrace initCtx (enableScenario.take 5)).1.ramp_rem = RAMP_MS ∧
    (runTrace initCtx (enableScenario.take 5)).1.pos_tgt = 1000 ∧
    (0 < (1001 : Int) - 1000 ∧ (1001 : Int) - 1000 < INC_STEP) := by
  decide

/-! ### C9 — comm-loss guard frame property -/

/-- C9 (confirmed).  When the status word reads the all-zero sentinel, the
cycle resets the timing reference `t0` to the current clock and does nothing
else: no output field is written, no event is emitted, and every other context
field is unchanged. -/
theorem comm_loss_frame (c : Ctx) (i : Inputs) (h : i.status_word = 0) :
    ServoTemplate_RunBody c i = ({ c with t0 := i.now }, noOut) := by
  simp [ServoTemplate_RunBody, h]

/-- Witness for `comm_loss_frame` at a concrete context and input. -/
theorem comm_loss_frame_witness :
    ServoTemplate_RunBody initCtx ⟨0, 5, 7, 42⟩ =
      ({ initCtx with t0 := 42 }, noOut) :=
  comm_loss_frame initCtx ⟨0, 5, 7, 42⟩ rfl

/-! ### C10 — Init always succeeds; unmapped Run is a no-op -/

/-- C10 (confirmed).  `ServoTemplate_Init` returns 0 for every combination of
ENI bit sizes and offsets (a size mismatch only warns); since the `map_io`
stub fails, the buffers stay unmapped, and every subsequent call of the cycle
function returns immediately: no output is written and no context field is
mutated. -/
theorem init_ok_unmapped_noop :
    (∀ a b d e : Nat, ServoTemplate_Init a b d e = (0, false)) ∧
    (∀ (c : Ctx) (i : Inputs), ServoTemplate_Run false c i = (c, noOut)) := by
  exact ⟨fun a b d e => rfl, fun c i => rfl⟩

/-! ### C8 — set-point handshake edge policy (compiled policy: toggle on change) -/

/-- Toggling bit 4 always changes a word. -/
theorem xor16_ne (n : Nat) : n ^^^ 0x0010 ≠ n := by
  intro h
  have h2 := congrArg (fun t => t.testBit 4) h
  simp only [Nat.testBit_xor] at h2
  rw [show Nat.testBit 16 4 = true from by decide] at h2
  cases hb : n.testBit 4 <;> rw [hb] at h2 <;> simp at h2

set_option maxHeartbeats 2000000 in
/-- C8 (confirmed).  On every producer tick in the Running stage, the control
word written is `0x000F` ORed with the current handshake bit, the target
written equals the new running target, and the handshake bit flips (by XOR
with `0x0010`) exactly when the freshly written target differs from the
previous tick's target value. -/
theorem edge_policy_on_change (c : Ctx) (i : Inputs)
    (hsw : i.status_word ≠ 0)
    (hfault : i.status_word &&& 0x0008 = 0)
    (hcool : ¬ c.fault_cool_rem > 0)
    (hcomm : ¬ c.comm_cool_rem > 0)
    (hdis : i.status_word &&& 0x0040 = 0)
    (hst : c.st = 3)
    (htick : i.now - c.t0 ≥ LOOP_PERIOD_MS) :
    ((ServoTemplate_RunBody c i).2.control_word =
      some (0x000F ||| (ServoTemplate_RunBody c i).1.edge)) ∧
    ((ServoTemplate_RunBody c i).2.target_position =
      some (ServoTemplate_RunBody c i).1.pos_tgt) ∧
    ((ServoTemplate_RunBody c i).1.edge ≠ c.edge ↔
      (ServoTemplate_RunBody c i).1.pos_tgt ≠ c.pos_tgt) ∧
    ((ServoTemplate_RunBody c i).1.pos_tgt ≠ c.pos_tgt →
      (ServoTemplate_RunBody c i).1.edge = c.edge ^^^ 0x0010) ∧
    ((ServoTemplate_RunBody c i).1.pos_tgt = c.pos_tgt →
      (ServoTemplate_RunBody c i).1.edge = c.edge) := by
  have hrun : ServoTemplate_RunBody c i = producerTick c i := by
    rw [ServoTemplate_RunBody]
    simp only [hst]
    rw [if_neg hsw, if_neg (by simp [hfault]), if_neg hcool, if_neg hcomm,
        if_neg (by simp [hdis]), if_neg (by decide), if_neg (by decide),
        if_neg (by decide), if_pos (by decide), if_pos htick]
  rw [hrun, producerTick]
  by_cases hchg :
      (producerCore c.pos_tgt c.dir c.dwell_rem c.ramp_rem).1 = c.pos_tgt
  · simp [SETPOINT_EDGE_POLICY, hchg]
  · simp [SETPOINT_EDGE_POLICY, hchg, xor16_ne]

/-- Witness for `edge_policy_on_change` at a concrete Running context. -/
theorem edge_policy_on_change_witness :
    (ServoTemplate_RunBody dwellEndNegCtx ⟨0x0027, 0, 0, 1⟩).2.control_word =
      some (0x000F ||| (ServoTemplate_RunBody dwellEndNegCtx ⟨0x0027, 0, 0, 1⟩).1.edge) :=
  (edge_policy_on_change dwellEndNegCtx ⟨0x0027, 0, 0, 1⟩ (by decide) (by decide)
    (by decide) (by decide) (by decide) rfl (by decide)).1

/-! ### C6 — ramp monotonicity -/

/-- With the ramp countdown exhausted, the increment is the full step. -/
theorem rampDelta_zero_rem (dir : Int) : rampDelta dir 0 = dir * INC_STEP := by
  simp [rampDelta]

/-- Closed form of the ramp-scaled increment while the ramp is active: with
`ticks_elapsed = RAMP_MS - r + 1`, the computed increment is exactly
`dir * ticks_elapsed` (the division `dir * INC_STEP * ticks_elapsed / RAMP_MS`
is exact because `INC_STEP = RAMP_MS`), and the ±1 minimum-progress forcing
never fires because the scaled value is already nonzero. -/
theorem rampDelta_eq (dir r : Int) (hd : dir = 1 ∨ dir = -1)
    (h1 : 1 ≤ r) (h2 : r ≤ RAMP_MS) :
    rampDelta dir r = dir * (RAMP_MS - r + 1) := by
  have hT : (if RAMP_MS > 0 then RAMP_MS else 1) = 300 := by norm_num [RAMP_MS]
  have hkey : Int.tdiv (dir * INC_STEP * (300 - r + 1)) 300 = dir * (300 - r + 1) := by
    have hmul : dir * INC_STEP * (300 - r + 1) = 300 * (dir * (300 - r + 1)) := by
      simp only [INC_STEP]; ring
    rw [hmul, Int.mul_tdiv_cancel_left _ (by norm_num)]
  rw [RAMP_MS] at h2 ⊢
  simp only [rampDelta, hT, hkey]
  rw [if_pos (show r > 0 by omega)]
  have hne : dir * (300 - r + 1) ≠ 0 := by
    rcases hd with rfl | rfl <;> simp <;> omega
  rw [if_neg (by intro hc; exact hne hc.1)]

/-- C6 (confirmed).  During an active ramp (`ramp_rem = r`, `1 ≤ r ≤ RAMP_MS`)
with a nonzero direction: the elapsed-tick count `RAMP_MS - r + 1` rises from
1 to `RAMP_MS`; the increment equals `dir * (RAMP_MS - r + 1)` (the linear
scaling, with the ±1 floor vacuous); the magnitude of successive increments is
non-decreasing (the tick after `r` uses countdown `r - 1`); and the magnitude
reaches the full unscaled step `INC_STEP` exactly on the tick that takes the
countdown to zero (`r = 1`). -/
theorem ramp_monotonicity (dir r : Int) (hd : dir = 1 ∨ dir = -1)
    (h1 : 1 ≤ r) (h2 : r ≤ RAMP_MS) :
    (1 ≤ RAMP_MS - r + 1 ∧ RAMP_MS - r + 1 ≤ RAMP_MS) ∧
    rampDelta dir r = dir * (RAMP_MS - r + 1) ∧
    (rampDelta dir r).natAbs ≤ (rampDelta dir (r - 1)).natAbs ∧
    ((rampDelta dir r).natAbs = INC_STEP.natAbs ↔ r = 1) := by
  have h2n : r ≤ 300 := by rw [RAMP_MS] at h2; exact h2
  have he := rampDelta_eq dir r hd h1 h2
  have habs : ∀ k : Int, (dir * k).natAbs = k.natAbs := by
    intro k; rcases hd with rfl | rfl <;> simp
  constructor
  · constructor <;> omega
  constructor
  · exact he
  constructor
  · by_cases hr1 : r = 1
    · subst hr1
      rw [he, habs, (by norm_num : (1:Int) - 1 = 0), rampDelta_zero_rem dir, habs]
      simp only [RAMP_MS, INC_STEP]
      omega
    · have hp := rampDelta_eq dir (r - 1) hd (by omega) (by rw [RAMP_MS]; omega)
      rw [he, hp, habs, habs]
      simp only [RAMP_MS]
      omega
  · rw [he, habs]
    simp only [RAMP_MS, INC_STEP]
    omega

/-- Witness for `ramp_monotonicity` at direction 1, countdown 5. -/
theorem ramp_monotonicity_witness :
    rampDelta 1 5 = 1 * (RAMP_MS - 5 + 1) :=
  (ramp_monotonicity 1 5 (Or.inl rfl) (by decide) (by decide)).2.1

/-! ### C7 — following-error hysteresis -/

/-- Unlatched monitor stays quiet while the error is within the warn
threshold. -/
theorem feMonitor_quiet (fe : Int) (h : |fe| ≤ fe_warn_th) :
    feMonitor false fe = (false, false, false) := by
  have hc : ¬ (fe > fe_warn_th ∨ fe < -fe_warn_th) := by
    rcases abs_cases fe with ⟨h1, h2⟩ | ⟨h1, h2⟩ <;> rw [h1] at h <;> omega
  simp [feMonitor, hc]

/-- Unlatched monitor latches and emits one warning when the error exceeds
the warn threshold. -/
theorem feMonitor_warn (fe : Int) (h : fe_warn_th < |fe|) :
    feMonitor false fe = (true, true, false) := by
  have hc : fe > fe_warn_th ∨ fe < -fe_warn_th := by
    rcases abs_cases fe with ⟨h1, h2⟩ | ⟨h1, h2⟩ <;> rw [h1] at h <;> omega
  simp [feMonitor, hc]

/-- Latched monitor stays latched and silent while the error is at or above
the clear threshold. -/
theorem feMonitor_hold (fe : Int) (h : fe_ok_th ≤ |fe|) :
    feMonitor true fe = (true, false, false) := by
  have hc : ¬ (fe < fe_ok_th ∧ fe > -fe_ok_th) := by
    rcases abs_cases fe with ⟨h1, h2⟩ | ⟨h1, h2⟩ <;> rw [h1] at h <;> omega
  simp [feMonitor, hc]

/-- Latched monitor unlatches and emits one recovery when the error falls
below the clear threshold. -/
theorem feMonitor_recover (fe : Int) (h : |fe| < fe_ok_th) :
    feMonitor true fe = (false, false, true) := by
  have hc : fe < fe_ok_th ∧ fe > -fe_ok_th := by
    rcases abs_cases fe with ⟨h1, h2⟩ | ⟨h1, h2⟩ <;> rw [h1] at h <;> omega
  simp [feMonitor, hc]

/-- Unfolding of `feScan` on a cons cell. -/
theorem feScan_cons (w : Bool) (x : Int) (l : List Int) :
    feScan w (x :: l) =
      ((feScan (feMonitor w x).1 l).1,
       (if (feMonitor w x).2.1 then 1 else 0) + (feScan (feMonitor w x).1 l).2.1,
       (if (feMonitor w x).2.2 then 1 else 0) + (feScan (feMonitor w x).1 l).2.2) :=
  rfl

/-- Event counts over a concatenation add up. -/
theorem feScan_append (w : Bool) (l1 l2 : List Int) :
    feScan w (l1 ++ l2) =
      ((feScan (feScan w l1).1 l2).1,
       (feScan w l1).2.1 + (feScan (feScan w l1).1 l2).2.1,
       (feScan w l1).2.2 + (feScan (feScan w l1).1 l2).2.2) := by
  induction l1 generalizing w with
  | nil => simp [feScan]
  | cons x xs ih =>
    have hc : (x :: xs) ++ l2 = x :: (xs ++ l2) := rfl
    rw [hc, feScan_cons, feScan_cons, ih]
    simp only [Prod.mk.injEq]
    exact ⟨trivial, by omega, by omega⟩

/-- A trace that never exceeds the warn threshold produces no events from the
unlatched state. -/
theorem feScan_calm (l : List Int) (h : ∀ x ∈ l, |x| ≤ fe_warn_th) :
    feScan false l = (false, 0, 0) := by
  induction l with
  | nil => rfl
  | cons x xs ih =>
    rw [feScan_cons, feMonitor_quiet x (h x (List.mem_cons_self x xs)),
      ih (fun y hy => h y (List.mem_cons_of_mem x hy))]
    rfl

/-- A trace that never falls below the clear threshold produces no events from
the latched state. -/
theorem feScan_band (l : List Int) (h : ∀ x ∈ l, fe_ok_th ≤ |x|) :
    feScan true l = (true, 0, 0) := by
  induction l with
  | nil => rfl
  | cons x xs ih =>
    rw [feScan_cons, feMonitor_hold x (h x (List.mem_cons_self x xs)),
      ih (fun y hy => h y (List.mem_cons_of_mem x hy))]
    rfl

/-- C7 (confirmed).  Single-step characterisation: from unlatched, the monitor
latches with exactly one warning exactly when `|fe|` exceeds the 80% threshold
(16000), otherwise stays silent; from latched, it unlatches with exactly one
recovery exactly when `|fe|` is below the 40% threshold (8000), otherwise
stays silent.  Trace form: any error trace that stays within the warn
threshold, rises above it once, oscillates at or above the clear threshold,
falls below the clear threshold once, and stays within the warn threshold
afterwards, yields exactly one warning and exactly one recovery. -/
theorem fe_hysteresis :
    (∀ fe : Int,
      (feMonitor false fe = (true, true, false) ↔ fe_warn_th < |fe|) ∧
      (¬ fe_warn_th < |fe| → feMonitor false fe = (false, false, false)) ∧
      (feMonitor true fe = (false, false, true) ↔ |fe| < fe_ok_th) ∧
      (¬ |fe| < fe_ok_th → feMonitor true fe = (true, false, false))) ∧
    (∀ (p q t : List Int) (a b : Int),
      (∀ x ∈ p, |x| ≤ fe_warn_th) → fe_warn_th < |a| →
      (∀ x ∈ q, fe_ok_th ≤ |x|) → |b| < fe_ok_th →
      (∀ x ∈ t, |x| ≤ fe_warn_th) →
      feScan false (p ++ [a] ++ q ++ [b] ++ t) = (false, 1, 1)) := by
  constructor
  · intro fe
    refine ⟨⟨fun hm => ?_, feMonitor_warn fe⟩, fun hn => feMonitor_quiet fe (by omega),
            ⟨fun hm => ?_, feMonitor_recover fe⟩, fun hn => feMonitor_hold fe (by omega)⟩
    · by_cases hc : fe_warn_th < |fe|
      · exact hc
      · rw [feMonitor_quiet fe (by omega)] at hm
        exact absurd (congrArg (fun z => z.1) hm) (by simp)
    · by_cases hc : |fe| < fe_ok_th
      · exact hc
      · rw [feMonitor_hold fe (by omega)] at hm
        exact absurd (congrArg (fun z => z.1) hm) (by simp)
  · intro p q t a b hp ha hq hb ht
    have h3 : feScan false t = (false, 0, 0) := feScan_calm t ht
    have h4 : feScan true (b :: t) = (false, 0, 1) := by
      rw [feScan_cons, feMonitor_recover b hb, h3]
      rfl
    have h2 : feScan true (q ++ b :: t) = (false, 0, 1) := by
      rw [feScan_append true q (b :: t), feScan_band q hq, h4]
      rfl
    have h1 : feScan false (a :: (q ++ b :: t)) = (false, 1, 1) := by
      rw [feScan_cons, feMonitor_warn a ha, h2]
      rfl
    have hL : p ++ [a] ++ q ++ [b] ++ t = p ++ (a :: (q ++ b :: t)) := by simp
    rw [hL, feScan_append false p (a :: (q ++ b :: t)), feScan_calm p hp, h1]
    rfl

/-- Witness for `fe_hysteresis` on a concrete trace: quiet, spike to 17000,
oscillation at 12000 and -9000, recovery at 100, then quiet. -/
theorem fe_hysteresis_witness :
    feScan false ([10000] ++ [17000] ++ [12000, -9000] ++ [100] ++ [9000]) =
      (false, 1, 1) :=
  fe_hysteresis.2 [10000] [12000, -9000] [9000] 17000 100
    (by decide) (by decide) (by decide) (by decide) (by decide)

/-! ### C1 — clamp invariant under bounded actual positions -/

/-- Values already in the signed 32-bit range are fixed by `toInt32`. -/
theorem toInt32_id (x : Int) (h1 : -2147483648 ≤ x) (h2 : x < 2147483648) :
    toInt32 x = x := by
  have e1 : (2:Int) ^ 31 = 2147483648 := by norm_num
  have e2 : (2:Int) ^ 32 = 4294967296 := by norm_num
  rw [toInt32, e1, e2, Int.emod_eq_of_lt (by omega) (by omega)]
  omega

/-- With direction 0 the computed increment is 0 (the ±1 floor requires a
nonzero direction). -/
theorem rampDelta_dir_zero (r : Int) : rampDelta 0 r = 0 := by
  simp [rampDelta]

/-- The per-tick increment never exceeds the full step in magnitude. -/
theorem rampDelta_bound (dir r : Int) (hd : dir = -1 ∨ dir = 0 ∨ dir = 1)
    (h1 : 0 ≤ r) (h2 : r ≤ RAMP_MS) :
    -INC_STEP ≤ rampDelta dir r ∧ rampDelta dir r ≤ INC_STEP := by
  rcases hd with rfl | rfl | rfl
  · by_cases hr : 1 ≤ r
    · rw [rampDelta_eq (-1) r (Or.inr rfl) hr h2]
      simp only [RAMP_MS, INC_STEP] at *
      omega
    · rw [show r = 0 from by omega, rampDelta_zero_rem]
      simp only [INC_STEP]
      omega
  · rw [rampDelta_dir_zero]
    simp only [INC_STEP]
    omega
  · by_cases hr : 1 ≤ r
    · rw [rampDelta_eq 1 r (Or.inl rfl) hr h2]
      simp only [RAMP_MS, INC_STEP] at *
      omega
    · rw [show r = 0 from by omega, rampDelta_zero_rem]
      simp only [INC_STEP]
      omega

/-- The clamp keeps the motion-updated target within the software limits,
for any dwell value, direction in {-1,0,1} and ramp countdown in range. -/
theorem producerCore_pos_bound (pos dir dwell ramp : Int)
    (hp1 : -LIMIT_POS ≤ pos) (hp2 : pos ≤ LIMIT_POS)
    (hd : dir = -1 ∨ dir = 0 ∨ dir = 1)
    (hr1 : 0 ≤ ramp) (hr2 : ramp ≤ RAMP_MS) :
    -LIMIT_POS ≤ (producerCore pos dir dwell ramp).1 ∧
      (producerCore pos dir dwell ramp).1 ≤ LIMIT_POS := by
  have hdel := rampDelta_bound dir ramp hd hr1 hr2
  have hti : toInt32 (pos + rampDelta dir ramp) = pos + rampDelta dir ramp := by
    apply toInt32_id <;> (simp only [LIMIT_POS, INC_STEP] at hp1 hp2 hdel; omega)
  simp only [producerCore]
  rw [hti]
  split_ifs <;> (simp only [LIMIT_POS, RAMP_MS, DWELL_MS, INC_STEP] at *; omega)

/-- The producer only ever produces directions in {-1, 0, 1}. -/
theorem producerCore_dir_mem (pos dir dwell ramp : Int)
    (hd : dir = -1 ∨ dir = 0 ∨ dir = 1) :
    (producerCore pos dir dwell ramp).2.1 = -1 ∨
      (producerCore pos dir dwell ramp).2.1 = 0 ∨
      (producerCore pos dir dwell ramp).2.1 = 1 := by
  simp only [producerCore]
  split_ifs <;> simp_all

/-- The ramp countdown stays within [0, RAMP_MS]. -/
theorem producerCore_ramp_bound (pos dir dwell ramp : Int)
    (hr1 : 0 ≤ ramp) (hr2 : ramp ≤ RAMP_MS) :
    0 ≤ (producerCore pos dir dwell ramp).2.2.2 ∧
      (producerCore pos dir dwell ramp).2.2.2 ≤ RAMP_MS := by
  simp only [producerCore]
  split_ifs <;> (simp only [RAMP_MS] at *; omega)

/-- State invariant of the control-loop context: the running target is within
the software limits, the direction is one of {-1, 0, 1} and the ramp countdown
is in range.  It holds at start-up and is preserved by every tick whose
`position_actual_value` input is within the software limits. -/
def CtxInv (c : Ctx) : Prop :=
  -LIMIT_POS ≤ c.pos_tgt ∧ c.pos_tgt ≤ LIMIT_POS ∧
  (c.dir = -1 ∨ c.dir = 0 ∨ c.dir = 1) ∧
  0 ≤ c.ramp_rem ∧ c.ramp_rem ≤ RAMP_MS

set_option maxHeartbeats 2000000 in
/-- One tick with in-range actual position preserves the context invariant. -/
theorem runBody_inv_ctx (c : Ctx) (i : Inputs) (hc : CtxInv c)
    (hp1 : -LIMIT_POS ≤ i.position_actual_value)
    (hp2 : i.position_actual_value ≤ LIMIT_POS) :
    CtxInv (ServoTemplate_RunBody c i).1 := by
  obtain ⟨hc1, hc2, hc3, hc4, hc5⟩ := hc
  have hti : toInt32 i.position_actual_value = i.position_actual_value := by
    apply toInt32_id <;> (simp only [LIMIT_POS] at hp1 hp2; omega)
  rw [ServoTemplate_RunBody]
  split_ifs
  all_goals try (exact ⟨hc1, hc2, hc3, hc4, hc5⟩)
  · exact ⟨by simp only [hti]; exact hp1, by simp only [hti]; exact hp2, hc3,
      by norm_num [RAMP_MS], by norm_num [RAMP_MS]⟩
  · exact ⟨by simp only [hti]; exact hp1, by simp only [hti]; exact hp2, hc3, hc4, hc5⟩
  · rw [producerTick]
    have hb := producerCore_pos_bound c.pos_tgt c.dir c.dwell_rem c.ramp_rem
      hc1 hc2 hc3 hc4 hc5
    have hm := producerCore_dir_mem c.pos_tgt c.dir c.dwell_rem c.ramp_rem hc3
    have hr := producerCore_ramp_bound c.pos_tgt c.dir c.dwell_rem c.ramp_rem hc4 hc5
    exact ⟨hb.1, hb.2, hm, hr.1, hr.2⟩

set_option maxHeartbeats 2000000 in
/-- Any target value written by a tick whose context satisfies the invariant
and whose actual position is in range lies within the software limits. -/
theorem runBody_tgt (c : Ctx) (i : Inputs) (v : Int) (hc : CtxInv c)
    (hp1 : -LIMIT_POS ≤ i.position_actual_value)
    (hp2 : i.position_actual_value ≤ LIMIT_POS)
    (hv : (ServoTemplate_RunBody c i).2.target_position = some v) :
    -LIMIT_POS ≤ v ∧ v ≤ LIMIT_POS := by
  obtain ⟨hc1, hc2, hc3, hc4, hc5⟩ := hc
  have hti : toInt32 i.position_actual_value = i.position_actual_value := by
    apply toInt32_id <;> (simp only [LIMIT_POS] at hp1 hp2; omega)
  rw [ServoTemplate_RunBody] at hv
  split_ifs at hv
  all_goals try (simp [noOut] at hv)
  · simp only [hti, Option.some.injEq] at hv
    subst hv
    exact ⟨hp1, hp2⟩
  · simp only [hti, Option.some.injEq] at hv
    subst hv
    exact ⟨hp1, hp2⟩
  · rw [producerTick] at hv
    simp only [Option.some.injEq] at hv
    subst hv
    exact producerCore_pos_bound c.pos_tgt c.dir c.dwell_rem c.ramp_rem
      hc1 hc2 hc3 hc4 hc5

/-- Unfolding of `runTrace` on a cons cell. -/
theorem runTrace_cons (c : Ctx) (i : Inputs) (l : List Inputs) :
    runTrace c (i :: l) =
      ((runTrace (ServoTemplate_RunBody c i).1 l).1,
       (ServoTemplate_RunBody c i).2 :: (runTrace (ServoTemplate_RunBody c i).1 l).2) :=
  rfl

/-- Trace induction: from an invariant context, a trace of in-range actual
positions keeps the invariant and every written target within the limits. -/
theorem runTrace_inv (ins : List Inputs) : ∀ c : Ctx, CtxInv c →
    (∀ i ∈ ins, -LIMIT_POS ≤ i.position_actual_value ∧
      i.position_actual_value ≤ LIMIT_POS) →
    CtxInv (runTrace c ins).1 ∧
    ∀ o ∈ (runTrace c ins).2, ∀ v, o.target_position = some v →
      -LIMIT_POS ≤ v ∧ v ≤ LIMIT_POS := by
  induction ins with
  | nil => exact fun c hc _ => ⟨hc, by simp [runTrace]⟩
  | cons i rest ih =>
    intro c hc hin
    have h0 := hin i (List.mem_cons_self i rest)
    have hctx := runBody_inv_ctx c i hc h0.1 h0.2
    have h2 := ih (ServoTemplate_RunBody c i).1 hctx
      (fun j hj => hin j (List.mem_cons_of_mem i hj))
    rw [runTrace_cons]
    refine ⟨h2.1, fun o ho v hv => ?_⟩
    rcases List.mem_cons.mp ho with rfl | ho2
    · exact runBody_tgt c i v hc h0.1 h0.2 hv
    · exact h2.2 o ho2 v hv

/-- C1 (amended).  For every input trace from the initial context in which
each tick's `position_actual_value` lies within ±`LIMIT_POS`, every value
written to `target_position` lies within ±`LIMIT_POS`.  (Without that bound
on the actual position the claim fails: the Aligning-stage write copies
`position_actual_value` unclamped — see the counterexample.) -/
theorem clamp_invariant_bounded_actuals (ins : List Inputs)
    (hin : ∀ i ∈ ins, -LIMIT_POS ≤ i.position_actual_value ∧
      i.position_actual_value ≤ LIMIT_POS) :
    ∀ o ∈ (runTrace initCtx ins).2, ∀ v, o.target_position = some v →
      -LIMIT_POS ≤ v ∧ v ≤ LIMIT_POS := by
  have hInv : CtxInv initCtx := by
    unfold CtxInv
    decide
  exact (runTrace_inv ins initCtx hInv hin).2

/-- Witness for `clamp_invariant_bounded_actuals` on the concrete enable
trace whose Aligning tick writes target 1000. -/
theorem clamp_invariant_bounded_actuals_witness :
    -LIMIT_POS ≤ (1000 : Int) ∧ (1000 : Int) ≤ LIMIT_POS :=
  clamp_invariant_bounded_actuals
    [⟨0x0021, 0, 0, 1⟩, ⟨0x0023, 0, 0, 2⟩, ⟨0x0023, 1000, 0, 3⟩]
    (by decide)
    { noOut with control_word := some 0x000F, target_position := some 1000 }
    (by decide) 1000 rfl
